import Mathlib

/-!
Verification of the debounced, keyed message-coalescing dispatcher in
`pushoverutil/queue.py` (repository `chief8192/pushover-util`).

Each Lean definition below is a shallow embedding of one piece of the Python
source; the doc comment of each definition names the source lines it embeds.
Machine behaviour that the source leaves broken (unbound names, mismatched
call signatures, commented-out branches) is embedded explicitly as failing
name/attribute lookups or as branches that produce no effect, exactly as the
live source text does.
-/

namespace PushoverUtil

/-- Modelled from the spec: the debounce window constant.  In the source,
`queue.py` line 32 holds `MAX_COUNTER = 15` but the whole line is commented
out (see `queueModuleBindings` below for the consequence); the spec documents
the default as 15 whole time-units, matching the commented-out line, and the
Sender logic is modelled with that value. -/
def MAX_COUNTER : Int := 15

/-- Embeds `Deduplicate` (`queue.py` lines 35-40): a generator that yields
each item whose value has not been seen before, in input order.  `seen` is
the accumulated set of already-yielded values (a Python `set`, modelled as a
list queried by membership).  Comparison is exact string equality, as in
Python. -/
def dedupAux (seen : List String) : List String → List String
  | [] => []
  | x :: xs => if x ∈ seen then dedupAux seen xs else x :: dedupAux (x :: seen) xs

/-- Embeds the entry point of `Deduplicate` (`queue.py` lines 35-40): the
seen set starts empty. -/
def Deduplicate (items : List String) : List String :=
  dedupAux [] items

/-- State of one `Sender` instance (`queue.py` lines 43-75), as observable
through its lock-protected fields plus its thread lifecycle.  `alive` models
`Thread.is_alive()`: true from `start()` until `run` returns or raises.
`snapped` records whether `run` has already executed its post-loop lock
section (lines 68-71) that joins and clears `self.messages`. -/
structure SenderSt where
  messages : List String
  counter : Int
  alive : Bool
  snapped : Bool
deriving DecidableEq

/-- Embeds `Sender.EnqueueMessage` (`queue.py` lines 52-55): under the lock,
unconditionally append the message to `self.messages` and reset
`self.counter` to `MAX_COUNTER`. -/
def EnqueueMessage (message : String) (s : SenderSt) : SenderSt :=
  { s with messages := s.messages ++ [message], counter := MAX_COUNTER }

/-- Embeds `Sender(initial_messages=[message])` followed by `start()`
(`queue.py` lines 43-50 and 96-99): a fresh, running Sender seeded with the
one message and its counter at `MAX_COUNTER` (per the spec value; the actual
`__init__` would fail on the unbound name, see `senderInitCounterLookup`). -/
def newSender (message : String) : SenderSt :=
  { messages := [message], counter := MAX_COUNTER, alive := true, snapped := false }

/-- Python `CLUSTER_DICT.get(key)` on the association-list model of the
registry dict (`queue.py` lines 78 and 90). -/
def getKey (k : String) : List (String × SenderSt) → Option SenderSt
  | [] => none
  | (k', v) :: rest => if k' = k then some v else getKey k rest

/-- Python `CLUSTER_DICT[key] = sender` (`queue.py` line 97): overwrite an
existing binding for the key, or add one. -/
def setKey (k : String) (v : SenderSt) :
    List (String × SenderSt) → List (String × SenderSt)
  | [] => [(k, v)]
  | (k', v') :: rest => if k' = k then (k, v) :: rest else (k', v') :: setKey k v rest

/-- Embeds the module-level `Push` (`queue.py` lines 81-121) acting on the
`CLUSTER_DICT` global.  The first component of the result is the updated
dict, the second lists the message bodies handed to the external transport
by this call: it is always empty because the unclustered send branch (lines
103-118) is entirely commented out in the source, leaving the function with
no effect when no truthy `cluster_key` is given.  Python truthiness of
`cluster_key` (both `None` and `""` are falsy) is modelled explicitly.  With
a truthy key, a missing or no-longer-alive Sender is replaced by a fresh one
seeded with the message (lines 92-99); otherwise the message is enqueued on
the existing Sender (lines 101-102). -/
def modulePush (message : String) (cluster_key : Option String)
    (d : List (String × SenderSt)) : List (String × SenderSt) × List String :=
  match cluster_key with
  | some k =>
    if k = "" then (d, [])
    else
      match getKey k d with
      | some s =>
        if s.alive then (setKey k (EnqueueMessage message s) d, [])
        else (setKey k (newSender message) d, [])
      | none => (setKey k (newSender message) d, [])
  | none => (d, [])

/-- The names bound at module level in `queue.py` after executing its live
(non-commented) top-level statements: the imports (lines 19-29) and the
definitions `Deduplicate`, `Sender`, `CLUSTER_DICT`, `Push`,
`PushoverQueue`.  `MAX_COUNTER` (line 32) is commented out and therefore
absent; so is the name `threading` (line 28 imports only `Thread` and
`RLock` from it). -/
def queueModuleBindings : List String :=
  ["datetime", "functools", "http", "os", "time", "urllib", "defaultdict",
   "Priority", "Push", "Thread", "RLock", "Optional",
   "Deduplicate", "Sender", "CLUSTER_DICT", "PushoverQueue"]

/-- Python runtime errors relevant to this module. -/
inductive PyError where
  | attributeError (attr : String)
  | typeError (msg : String)
  | nameError (n : String)
deriving DecidableEq

instance : DecidableEq (Except PyError Unit) := fun a b =>
  match a, b with
  | Except.ok (), Except.ok () => isTrue rfl
  | Except.error e₁, Except.error e₂ =>
    if h : e₁ = e₂ then isTrue (by rw [h])
    else isFalse (fun hh => h (Except.error.inj hh))
  | Except.ok _, Except.error _ => isFalse (fun hh => Except.noConfusion hh)
  | Except.error _, Except.ok _ => isFalse (fun hh => Except.noConfusion hh)

/-- Embeds the evaluation of the global name `MAX_COUNTER` in
`Sender.__init__` (`queue.py` line 48, `self.counter = MAX_COUNTER`): a
Python global-name lookup that raises `NameError` when the module binds no
such name. -/
def senderInitCounterLookup : Except PyError Unit :=
  if "MAX_COUNTER" ∈ queueModuleBindings then Except.ok ()
  else Except.error (PyError.nameError "MAX_COUNTER")

/-- The attributes assigned on a `Sender` instance by `Sender.__init__`
(`queue.py` lines 43-50): `messages`, `counter`, `lock`. -/
def senderInstanceAttrs : List String := ["messages", "counter", "lock"]

/-- The parameter names of the module-level `Push` (`queue.py` lines 81-85),
which shadows the `Push` imported from the transport module `push` at line
27: `message`, `cluster_key`, `high_priority`. -/
def pushParams : List String := ["message", "cluster_key", "high_priority"]

/-- Embeds the evaluation of the call
`Push(full_message, secrets_json_path=self.secrets_json_path)` at `queue.py`
line 74.  Python first resolves the attribute `self.secrets_json_path`
(raising `AttributeError` when the instance has no such attribute); only
then would the call be checked against the parameter list of the name
`Push` in scope — the module-level `Push`, which shadows the imported
transport `Push` — raising `TypeError` on an unexpected keyword argument. -/
def sendStepResult : Except PyError Unit :=
  if "secrets_json_path" ∈ senderInstanceAttrs then
    if "secrets_json_path" ∈ pushParams then Except.ok ()
    else Except.error (PyError.typeError "unexpected keyword argument")
  else Except.error (PyError.attributeError "secrets_json_path")

/-- Outcome of the flush phase of `Sender.run` (`queue.py` lines 62-75). -/
structure FlushResult where
  finalMessages : List String
  fullMessage : String
  transportCalls : List String
  sendAttempts : Nat
  sendResult : Except PyError Unit
  terminated : Bool
deriving DecidableEq

/-- Embeds the flush phase of `Sender.run` (`queue.py` lines 68-75), entered
once the countdown loop exits: under the lock, join the deduplicated
messages with a newline separator into `full_message` and clear
`self.messages`; then make the single send attempt of line 74 — there is no
retry or requeue code.  `transportCalls` lists the bodies that reach the
external transport `push.Push`: none when the send step errors, and even on
the (unreachable) success path the shadowing module-level `Push`, invoked
with its default `cluster_key=None`, makes no transport call.  The thread
terminates either way: `run` either returns or propagates the exception. -/
def runFlush (msgs : List String) : FlushResult :=
  let full := String.intercalate "\n" (Deduplicate msgs)
  let res := sendStepResult
  { finalMessages := []
    fullMessage := full
    transportCalls :=
      match res with
      | Except.ok _ => (modulePush full none []).2
      | Except.error _ => []
    sendAttempts := 1
    sendResult := res
    terminated := true }

/-- An event serialized by one Sender's lock: a countdown tick
(`DecrementCounter`, `queue.py` lines 57-60, driven by the loop at lines
65-66) or one `EnqueueMessage` re-arm (lines 52-55). -/
inductive SenderEv where
  | tick
  | enq
deriving DecidableEq

/-- Whether the countdown loop of `Sender.run` (`queue.py` lines 65-66)
exits — i.e. a flush begins — somewhere along the given event sequence,
starting from counter value `c`: each tick decrements the counter and the
loop exits as soon as a decrement returns a value ≤ 0, while each enqueue
resets the counter to `MAX_COUNTER`. -/
def flushInAux (c : Int) : List SenderEv → Bool
  | [] => false
  | SenderEv.tick :: es => if c - 1 ≤ 0 then true else flushInAux (c - 1) es
  | SenderEv.enq :: es => flushInAux MAX_COUNTER es

/-- A freshly started Sender begins with its counter at `MAX_COUNTER`. -/
def flushIn (es : List SenderEv) : Bool :=
  flushInAux MAX_COUNTER es

/-- An event sequence in which an Enqueue arrives at every tick, `n` times in
a row. -/
def altTrace : Nat → List SenderEv
  | 0 => []
  | n + 1 => SenderEv.enq :: SenderEv.tick :: altTrace n

/-- A global event in the interleaving of caller `Push` invocations with the
per-key Sender thread activity (`queue.py` lines 62-102).  `push m k` is a
call to the module-level `Push(m, cluster_key=k)`; `tick k` is one
`DecrementCounter` executed by key `k`'s Sender loop (lines 65-66); `snap k`
is that Sender's post-loop lock section (lines 68-71), enabled once the
counter has reached 0; `threadEnd k` is the Sender thread finishing (its
`run` returning or raising at line 74), after which `is_alive()` is
False. -/
inductive SysEv where
  | push (m : String) (k : String)
  | tick (k : String)
  | snap (k : String)
  | threadEnd (k : String)
deriving DecidableEq

/-- Global system state: the `CLUSTER_DICT` registry plus the record of all
flush snapshots taken so far (each the key paired with the deduplicated body
list that the flush of `queue.py` lines 68-71 drains). -/
structure SysSt where
  dict : List (String × SenderSt)
  flushedBodies : List (String × List String)
deriving DecidableEq

/-- One interleaving step.  Events whose enabling condition does not hold in
the current state (e.g. a tick for a key with no live counting Sender) leave
the state unchanged. -/
def sysStep (g : SysSt) : SysEv → SysSt
  | SysEv.push m k => { g with dict := (modulePush m (some k) g.dict).1 }
  | SysEv.tick k =>
    match getKey k g.dict with
    | some s =>
      if s.alive ∧ ¬s.snapped ∧ 0 < s.counter then
        { g with dict := setKey k { s with counter := s.counter - 1 } g.dict }
      else g
    | none => g
  | SysEv.snap k =>
    match getKey k g.dict with
    | some s =>
      if s.alive ∧ ¬s.snapped ∧ s.counter ≤ 0 then
        { dict := setKey k { s with messages := [], snapped := true } g.dict
          flushedBodies := g.flushedBodies ++ [(k, Deduplicate s.messages)] }
      else g
    | none => g
  | SysEv.threadEnd k =>
    match getKey k g.dict with
    | some s =>
      if s.alive ∧ s.snapped then
        { g with dict := setKey k { s with alive := false } g.dict }
      else g
    | none => g

/-- Run a whole interleaving from a state. -/
def runTrace (evs : List SysEv) (g : SysSt) : SysSt :=
  evs.foldl sysStep g

/-- The initial system state: empty `CLUSTER_DICT`, nothing flushed. -/
def initSys : SysSt :=
  { dict := [], flushedBodies := [] }

/-- The first half of the racing interleaving: "A" is pushed for key "k",
that Sender's countdown expires, the flush snapshot is taken, and then "B"
is pushed while the flushing thread is still alive — so the `is_alive()`
check at `queue.py` line 95 routes it into the already-drained Sender. -/
def lostTraceFirst : List SysEv :=
  [SysEv.push "A" "k"] ++ List.replicate 15 (SysEv.tick "k") ++
    [SysEv.snap "k", SysEv.push "B" "k"]

/-- The rest of the racing interleaving: the first Sender's thread dies,
"C" is pushed (replacing the dead Sender, and with it the buffered "B", by a
fresh Sender), and the fresh Sender runs to its own flush. -/
def lostTraceRest : List SysEv :=
  [SysEv.threadEnd "k", SysEv.push "C" "k"] ++
    List.replicate 15 (SysEv.tick "k") ++ [SysEv.snap "k", SysEv.threadEnd "k"]

/-- The complete racing interleaving. -/
def lostTrace : List SysEv :=
  lostTraceFirst ++ lostTraceRest

/-- Modelled from the spec: the priority levels of the external transport
module `push` (not under src/), per spec section 6. -/
inductive Priority where
  | low
  | normal
  | high
  | emergency
deriving DecidableEq

/-- The arguments with which `PushoverQueue.Push` (`queue.py` lines 158-175)
invokes the module-level `Push`: the body of the method is the single
statement `Push(self.user_key, self.api_token, message)`, so positionally
`self.user_key` is bound to `Push`'s `message` parameter, `self.api_token`
to `cluster_key`, and the caller's `message` to `high_priority`. -/
structure ModulePushArgs where
  message : String
  cluster_key : Option String
  high_priority : String
deriving DecidableEq

/-- Embeds `PushoverQueue.Push` (`queue.py` lines 158-175) for an instance
constructed from `user_key` and `api_token` (lines 128-137), returning the
arguments of the one call its body makes.  The caller-supplied
`clustering_key`, `priority` and `title` parameters (like the method's other
optional parameters) do not occur in the body and are dropped. -/
def PushoverQueuePush (user_key api_token : String) (message : String)
    (clustering_key : Option String) (priority : Priority)
    (title : Option String) : ModulePushArgs :=
  { message := user_key, cluster_key := some api_token, high_priority := message }

/- ------------------------------------------------------------------ -/
/- Theorems                                                            -/
/- ------------------------------------------------------------------ -/

theorem mem_dedupAux {x : String} :
    ∀ (l seen : List String), x ∈ dedupAux seen l ↔ x ∈ l ∧ x ∉ seen := by
  intro l
  induction l with
  | nil => intro seen; simp [dedupAux]
  | cons a as ih =>
    intro seen
    by_cases ha : a ∈ seen
    · simp only [dedupAux, if_pos ha, ih, List.mem_cons]
      constructor
      · rintro ⟨hx, hs⟩; exact ⟨Or.inr hx, hs⟩
      · rintro ⟨hx | hx, hs⟩
        · exact absurd (hx ▸ ha) hs
        · exact ⟨hx, hs⟩
    · simp only [dedupAux, if_neg ha, List.mem_cons, ih]
      constructor
      · rintro (rfl | ⟨hx, hs⟩)
        · exact ⟨Or.inl rfl, ha⟩
        · exact ⟨Or.inr hx, fun hmem => hs (Or.inr hmem)⟩
      · rintro ⟨rfl | hx, hs⟩
        · exact Or.inl rfl
        · by_cases hxa : x = a
          · exact Or.inl hxa
          · exact Or.inr ⟨hx, fun hmem => hmem.elim hxa hs⟩

theorem nodup_dedupAux : ∀ (l seen : List String), (dedupAux seen l).Nodup := by
  intro l
  induction l with
  | nil => intro seen; simp [dedupAux]
  | cons a as ih =>
    intro seen
    by_cases ha : a ∈ seen
    · simpa [dedupAux, if_pos ha] using ih seen
    · rw [dedupAux, if_neg ha]
      refine List.nodup_cons.mpr ⟨?_, ih (a :: seen)⟩
      intro hmem
      exact ((mem_dedupAux as (a :: seen)).mp hmem).2 (List.mem_cons_self a seen)

theorem count_deduplicate (l : List String) (x : String) :
    (Deduplicate l).count x = if x ∈ l then 1 else 0 := by
  by_cases hx : x ∈ l
  · rw [if_pos hx]
    exact List.count_eq_one_of_mem (nodup_dedupAux l [])
      ((mem_dedupAux l []).mpr ⟨hx, by simp⟩)
  · rw [if_neg hx]
    refine List.count_eq_zero.mpr ?_
    intro hmem
    exact hx ((mem_dedupAux l []).mp hmem).1

theorem pairwise_indexOf_lift (x : String) (xs : List String) :
    ∀ {d : List String}, (∀ a ∈ d, a ≠ x) →
      d.Pairwise (fun a b => xs.indexOf a < xs.indexOf b) →
      d.Pairwise (fun a b => (x :: xs).indexOf a < (x :: xs).indexOf b) := by
  intro d
  induction d with
  | nil => intro _ _; exact List.Pairwise.nil
  | cons c cs ih =>
    intro hne hp
    rcases List.pairwise_cons.mp hp with ⟨hc, hcs⟩
    refine List.pairwise_cons.mpr
      ⟨?_, ih (fun a ha => hne a (List.mem_cons_of_mem _ ha)) hcs⟩
    intro b hb
    have hcx : c ≠ x := hne c (List.mem_cons_self _ _)
    have hbx : b ≠ x := hne b (List.mem_cons_of_mem _ hb)
    rw [List.indexOf_cons_ne _ (Ne.symm hcx), List.indexOf_cons_ne _ (Ne.symm hbx)]
    exact Nat.succ_lt_succ (hc b hb)

theorem pairwise_dedupAux :
    ∀ (l seen : List String),
      (dedupAux seen l).Pairwise (fun a b => l.indexOf a < l.indexOf b) := by
  intro l
  induction l with
  | nil => intro seen; simp [dedupAux]
  | cons a as ih =>
    intro seen
    by_cases ha : a ∈ seen
    · rw [dedupAux, if_pos ha]
      refine pairwise_indexOf_lift a as ?_ (ih seen)
      intro b hb
      intro hba
      exact ((mem_dedupAux as seen).mp hb).2 (hba ▸ ha)
    · rw [dedupAux, if_neg ha]
      refine List.pairwise_cons.mpr ⟨?_, ?_⟩
      · intro b hb
        have hbne : b ≠ a := by
          intro hba
          exact ((mem_dedupAux as (a :: seen)).mp hb).2 (hba ▸ List.mem_cons_self a seen)
        rw [List.indexOf_cons_self, List.indexOf_cons_ne _ (Ne.symm hbne)]
        exact Nat.succ_pos _
      · refine pairwise_indexOf_lift a as ?_ (ih (a :: seen))
        intro b hb hba
        exact ((mem_dedupAux as (a :: seen)).mp hb).2 (hba ▸ List.mem_cons_self a seen)

/-- C1: for every sequence of message bodies accumulated by one Sender, the
flushed body is the deduplicated sequence joined with single newline
separators; the deduplicated sequence contains each distinct body exactly
once (counted by exact value equality) and lists bodies in strictly
increasing order of their first-occurrence index in the accumulated
sequence. -/
theorem flush_dedups_in_first_occurrence_order (msgs : List String) :
    (runFlush msgs).fullMessage = String.intercalate "\n" (Deduplicate msgs) ∧
    (∀ x, (Deduplicate msgs).count x = if x ∈ msgs then 1 else 0) ∧
    (Deduplicate msgs).Pairwise (fun a b => msgs.indexOf a < msgs.indexOf b) :=
  ⟨rfl, count_deduplicate msgs, pairwise_dedupAux msgs []⟩

theorem flushInAux_altTrace :
    ∀ (n : Nat) (c : Int) (rest : List SenderEv),
      flushInAux c (altTrace (n + 1) ++ rest) = flushInAux (MAX_COUNTER - 1) rest := by
  intro n
  induction n with
  | zero =>
    intro c rest
    simp [altTrace, flushInAux, MAX_COUNTER]
  | succ m ih =>
    intro c rest
    have h1 : flushInAux c (altTrace (m + 1 + 1) ++ rest)
        = flushInAux (MAX_COUNTER - 1) (altTrace (m + 1) ++ rest) := by
      simp [altTrace, flushInAux, MAX_COUNTER]
    rw [h1, ih]

theorem flushInAux_ticks :
    ∀ (m : Nat) (c : Int), 0 < c →
      flushInAux c (List.replicate m SenderEv.tick) = decide (c ≤ (m : Int)) := by
  intro m
  induction m with
  | zero =>
    intro c hc
    simp [flushInAux]
    omega
  | succ k ih =>
    intro c hc
    rw [List.replicate_succ]
    show (if c - 1 ≤ 0 then true else flushInAux (c - 1) (List.replicate k SenderEv.tick))
        = decide (c ≤ ((k + 1 : Nat) : Int))
    by_cases h : c - 1 ≤ 0
    · rw [if_pos h]
      symm
      simp only [decide_eq_true_eq]
      push_cast
      omega
    · have hc' : 0 < c - 1 := by omega
      rw [if_neg h, ih (c - 1) hc']
      have : (c - 1 ≤ (k : Int)) ↔ (c ≤ ((k + 1 : Nat) : Int)) := by push_cast; omega
      simp only [decide_eq_decide]
      exact this

/-- C2: if an Enqueue re-arm arrives at every tick for `n < MAX_COUNTER`
consecutive ticks (indeed for any `n ≥ 1`), the countdown loop never exits
during those ticks; once the Enqueues stop, the flush begins exactly when
`MAX_COUNTER` (= 15) ticks have elapsed since the last Enqueue — `m` further
enqueue-free ticks after the one that immediately followed the last Enqueue,
i.e. `m + 1 ≥ 15` ticks with no further Enqueue. -/
theorem debounce_reset (n m : Nat) (h1 : 1 ≤ n) (h2 : n < 15) :
    flushIn (altTrace n) = false ∧
      (flushIn (altTrace n ++ List.replicate m SenderEv.tick) = true ↔ 15 ≤ m + 1) := by
  obtain ⟨k, rfl⟩ : ∃ k, n = k + 1 := ⟨n - 1, by omega⟩
  constructor
  · have h := flushInAux_altTrace k MAX_COUNTER []
    rw [flushIn, ← List.append_nil (altTrace (k + 1)), h]
    rfl
  · rw [flushIn, flushInAux_altTrace k MAX_COUNTER _,
      flushInAux_ticks m (MAX_COUNTER - 1) (by norm_num [MAX_COUNTER])]
    rw [show MAX_COUNTER - 1 = (14 : Int) from rfl]
    simp only [decide_eq_true_eq]
    omega

/-- Witness for `debounce_reset` at `n = 3`, `m = 14`. -/
theorem debounce_reset_witness :
    (1 ≤ 3 ∧ 3 < 15) ∧
      (flushIn (altTrace 3) = false ∧
        (flushIn (altTrace 3 ++ List.replicate 14 SenderEv.tick) = true ↔ 15 ≤ 14 + 1)) :=
  ⟨by decide, debounce_reset 3 14 (by decide) (by decide)⟩

/-- C3: a `Push` with no truthy clustering key makes no transport call and
buffers nothing — the registry is left untouched — because the unclustered
send branch (`queue.py` lines 103-118) is commented out.  Shown for a `None`
key on an empty registry, a `None` key on a non-empty registry, and an empty
string key. -/
theorem unclustered_push_is_noop :
    modulePush "hello" none [] = ([], []) ∧
    modulePush "hello" (some "") [] = ([], []) ∧
    modulePush "hello" none [("k", newSender "x")] = ([("k", newSender "x")], []) := by
  decide

/-- C4: for every accumulated message list, the send step of `Sender.run`
fails with `AttributeError` on `self.secrets_json_path` — an attribute that
`Sender.__init__` never assigns — before anything reaches the transport, and
the keyword `secrets_json_path` is not a parameter of the (shadowing)
module-level `Push` either; hence no flush ever produces a transport
send. -/
theorem flush_send_always_errors (msgs : List String) :
    (runFlush msgs).sendResult = Except.error (PyError.attributeError "secrets_json_path") ∧
    (runFlush msgs).transportCalls = [] ∧
    "secrets_json_path" ∉ senderInstanceAttrs ∧
    "secrets_json_path" ∉ pushParams :=
  ⟨rfl, rfl, by decide, by decide⟩

/-- C5: the concrete interleaving `lostTrace` silently loses the pushed
message "B".  "B" is pushed (it occurs in the trace) after the flush
snapshot of key "k"'s Sender is taken but while that Sender's thread is
still alive, so it is appended to the drained Sender (as the intermediate
state after `lostTraceFirst` shows); the thread then dies, the next push
replaces the Sender, and at the end "B" is in no flushed body and in no
Sender's buffer — it was neither flushed nor seeded into a new timer. -/
theorem raced_push_lost :
    SysEv.push "B" "k" ∈ lostTrace ∧
    getKey "k" (runTrace lostTraceFirst initSys).dict
      = some { messages := ["B"], counter := 15, alive := true, snapped := true } ∧
    (runTrace lostTrace initSys).flushedBodies = [("k", ["A"]), ("k", ["C"])] ∧
    "B" ∉ (((runTrace lostTrace initSys).flushedBodies).map Prod.snd).flatten ∧
    "B" ∉ (((runTrace lostTrace initSys).dict).map (fun p => p.2.messages)).flatten := by
  decide

/-- C6 counterexample: enqueuing a body already present does not leave the
list unchanged — `EnqueueMessage` appends unconditionally, so the duplicate
entry is added. -/
theorem enqueue_duplicate_still_appends :
    (EnqueueMessage "A"
        { messages := ["A"], counter := 7, alive := true, snapped := false }).messages
      = ["A", "A"] ∧
    (EnqueueMessage "A"
        { messages := ["A"], counter := 7, alive := true, snapped := false }).messages
      ≠ ["A"] := by
  decide

theorem dedupAux_append_mem (m : String) :
    ∀ (l seen : List String), m ∈ l ∨ m ∈ seen →
      dedupAux seen (l ++ [m]) = dedupAux seen l := by
  intro l
  induction l with
  | nil =>
    intro seen h
    rcases h with h | h
    · exact absurd h (List.not_mem_nil m)
    · simp [dedupAux, h]
  | cons a as ih =>
    intro seen h
    by_cases ha : a ∈ seen
    · have harg : m ∈ as ∨ m ∈ seen := by
        rcases h with h | h
        · rcases List.mem_cons.mp h with rfl | h'
          · exact Or.inr ha
          · exact Or.inl h'
        · exact Or.inr h
      simp only [List.cons_append, dedupAux, if_pos ha]
      exact ih seen harg
    · have harg : m ∈ as ∨ m ∈ a :: seen := by
        rcases h with h | h
        · rcases List.mem_cons.mp h with rfl | h'
          · exact Or.inr (List.mem_cons_self _ _)
          · exact Or.inl h'
        · exact Or.inr (List.mem_cons_of_mem _ h)
      simp only [List.cons_append, dedupAux, if_neg ha]
      exact congrArg _ (ih (a :: seen) harg)

/-- C6 amended: every Enqueue — duplicate body or not — appends the body to
the accumulated list and re-arms the countdown to `MAX_COUNTER`; a duplicate
body is collapsed only at flush time, where deduplication makes the
flushed sequence identical to the one without the duplicate append. -/
theorem enqueue_appends_and_rearms (s : SenderSt) (message : String) :
    (EnqueueMessage message s).messages = s.messages ++ [message] ∧
    (EnqueueMessage message s).counter = MAX_COUNTER ∧
    (message ∈ s.messages →
      Deduplicate (s.messages ++ [message]) = Deduplicate s.messages) :=
  ⟨rfl, rfl, fun h => dedupAux_append_mem message s.messages [] (Or.inl h)⟩

/-- Witness for `enqueue_appends_and_rearms` on a Sender already holding
"A". -/
theorem enqueue_appends_and_rearms_witness :
    ("A" ∈ (["A"] : List String)) ∧
      Deduplicate (["A"] ++ ["A"]) = Deduplicate ["A"] :=
  ⟨by decide,
    (enqueue_appends_and_rearms
      { messages := ["A"], counter := 7, alive := true, snapped := false } "A").2.2
      (by decide)⟩

/-- C7: when the accumulated message list is empty at flush time, the flush
makes no transport call (the joined body is empty and the send step fails
before anything could reach the transport) and the Sender thread still
terminates. -/
theorem empty_flush_no_transport_call :
    (runFlush []).transportCalls = [] ∧
    (runFlush []).fullMessage = "" ∧
    (runFlush []).terminated = true := by
  decide

/-- C8: whatever the accumulated messages were and however the send step
turns out (in this source it always fails, before the transport), the flush
drops the accumulated messages — `self.messages` is cleared before the send
attempt and never repopulated — makes exactly one send attempt with no retry
or requeue, and the Sender thread terminates. -/
theorem flush_drops_messages_and_terminates (msgs : List String) :
    (runFlush msgs).finalMessages = [] ∧
    (runFlush msgs).sendAttempts = 1 ∧
    (runFlush msgs).terminated = true ∧
    (runFlush msgs).sendResult ≠ Except.ok () :=
  ⟨rfl, rfl, rfl, fun h => Except.noConfusion h⟩

/-- C9: the module binds no name `MAX_COUNTER` — line 32 of `queue.py`,
`MAX_COUNTER = 15`, is commented out — so the countdown initialisation
`self.counter = MAX_COUNTER` in `Sender.__init__` raises `NameError` instead
of installing the documented value 15. -/
theorem max_counter_is_unbound :
    "MAX_COUNTER" ∉ queueModuleBindings ∧
    senderInitCounterLookup = Except.error (PyError.nameError "MAX_COUNTER") := by
  decide

/-- C10: `PushoverQueue.Push` ignores its `clustering_key`, `priority` and
`title` parameters (two calls differing only there produce the identical
inner call), and the inner call binds `self.user_key` — not the caller's
message — to the message parameter and `self.api_token` — not the caller's
clustering key — to the cluster key. -/
theorem queue_push_passes_wrong_arguments :
    PushoverQueuePush "UK" "AT" "hello" (some "k") Priority.high (some "T")
      = PushoverQueuePush "UK" "AT" "hello" none Priority.normal none ∧
    (PushoverQueuePush "UK" "AT" "hello" (some "k") Priority.high (some "T")).message
      = "UK" ∧
    (PushoverQueuePush "UK" "AT" "hello" (some "k") Priority.high (some "T")).message
      ≠ "hello" ∧
    (PushoverQueuePush "UK" "AT" "hello" (some "k") Priority.high (some "T")).cluster_key
      = some "AT" ∧
    (PushoverQueuePush "UK" "AT" "hello" (some "k") Priority.high (some "T")).cluster_key
      ≠ some "k" := by
  decide

end PushoverUtil
